import Mathlib

/-!
# Verification of the ClawTell channel plugin's inbound delivery engine

Shallow embedding of the ClawTell channel plugin (queue module, delivery
policy filter, route resolution, attachment resolver, account-level poll
cycle, and the SSE failover loop), with theorems checking the
natural-language specification against the code.

File IO and network calls are modeled at their interface boundary: the
durable queue file is explicit `QueueFile` state threaded through the
operations, HTTP responses are explicit records, and the dispatch pipeline
is an oracle returning the success flag the code branches on.
-/

namespace ClawTell

/-! ## Local retry queue (queue module) -/

/-- `QueuedMessage`: one entry of the durable inbox-queue file.
`from_` embeds the `from` field (a Lean keyword). -/
structure QueuedMessage where
  id : String
  from_ : String
  toName : String
  agent : String
  forward : Bool
  content : String
  rawBody : String
  subject : Option String
  createdAt : String
  queuedAt : String
  attempts : Nat
  lastError : String
  accountId : String
  apiKey : String
  replyApiKey : Option String
  replyToMessageId : Option String
deriving DecidableEq, Repr

/-- `QueueFile`: the JSON object `{ pending, deadLetter }` stored in
`inbox-queue.json`. -/
structure QueueFile where
  pending : List QueuedMessage
  deadLetter : List QueuedMessage
deriving DecidableEq, Repr

def MAX_ATTEMPTS : Nat := 10

def emptyQueueFile : QueueFile := { pending := [], deadLetter := [] }

/-- `readQueue`: reads and parses the queue file, returning the empty queue
on any failure.  The raw file state is explicit: `none` models a missing or
unreadable file; `parse` models `JSON.parse` plus the unchecked cast to
`QueueFile`, returning `none` when `JSON.parse` throws on invalid JSON. -/
def readQueue (raw : Option String) (parse : String → Option QueueFile) : QueueFile :=
  match raw with
  | none => emptyQueueFile
  | some data =>
    match parse data with
    | none => emptyQueueFile
    | some queue => queue

/-- `enqueue`: append unless an entry with the same id is already pending. -/
def enqueue (q : QueueFile) (msg : QueuedMessage) : QueueFile :=
  if q.pending.any (fun m => m.id == msg.id) then q
  else { q with pending := q.pending ++ [msg] }

/-- `dequeue`: drop every pending entry with the given id. -/
def dequeue (q : QueueFile) (msgId : String) : QueueFile :=
  { q with pending := q.pending.filter (fun m => m.id != msgId) }

/-- In-place mutation of the entry found by `queue.pending.find(...)`:
the first pending entry with the given id gets `attempts + 1` and the new
`lastError`. -/
def bumpFirst (msgId error : String) : List QueuedMessage → List QueuedMessage
  | [] => []
  | m :: rest =>
    if m.id == msgId then
      { m with attempts := m.attempts + 1, lastError := error } :: rest
    else m :: bumpFirst msgId error rest

/-- The dead-letter bound from `markAttempt`: when the list exceeds 100
entries, keep only the last 100 (`deadLetter.slice(-100)`). -/
def truncateDeadLetter (dl : List QueuedMessage) : List QueuedMessage :=
  if dl.length > 100 then dl.drop (dl.length - 100) else dl

/-- `markAttempt`: increment the attempt count and record the error on the
first pending entry with the given id; once the count reaches
`MAX_ATTEMPTS`, move the entry from pending to the bounded dead-letter list
and return it, otherwise keep it pending and return `null` (`none`). -/
def markAttempt (q : QueueFile) (msgId error : String) :
    QueueFile × Option QueuedMessage :=
  match q.pending.find? (fun m => m.id == msgId) with
  | none => (q, none)
  | some msg =>
    let msg' := { msg with attempts := msg.attempts + 1, lastError := error }
    if msg'.attempts ≥ MAX_ATTEMPTS then
      ({ pending := q.pending.filter (fun m => m.id != msgId),
         deadLetter := truncateDeadLetter (q.deadLetter ++ [msg']) }, some msg')
    else
      ({ q with pending := bumpFirst msgId error q.pending }, none)

/-- `getPending`: all pending entries, for the retry phase of a cycle. -/
def getPending (q : QueueFile) : List QueuedMessage := q.pending

/-! ## JavaScript helpers -/

/-- JS `a || b` on strings: `b` when `a` is the empty string (falsy),
otherwise `a`. -/
def jsOrStr (a b : String) : String := if a = "" then b else a

/-- JS `a || b` where `a` is a possibly-absent string: `undefined`, `null`
and `""` all fall through to `b`. -/
def jsOrOptStr (a : Option String) (b : String) : String := jsOrStr (a.getD "") b

/-- JS string truthiness: non-empty strings are truthy; `undefined` and
`""` are falsy. -/
def jsTruthy (s : Option String) : Bool :=
  match s with
  | none => false
  | some v => v ≠ ""

/-- Digit-prefix accumulator for `jsParseInt10`. -/
def digitsToNat (ds : List Char) : Nat :=
  ds.foldl (fun acc c => acc * 10 + (c.toNat - 48)) 0

/-- JS `parseInt(s, 10)`: skip leading whitespace, take an optional sign,
then the longest prefix of decimal digits; `none` models `NaN` (no digit
found). -/
def jsParseInt10 (s : String) : Option Int :=
  let cs := s.toList.dropWhile (fun c => c.isWhitespace)
  let signAndRest : Int × List Char :=
    match cs with
    | '-' :: rest => (-1, rest)
    | '+' :: rest => (1, rest)
    | _ => (1, cs)
  let ds := signAndRest.2.takeWhile (fun c => c.isDigit)
  if ds.isEmpty then none
  else some (signAndRest.1 * (digitsToNat ds : Int))

/-- ASCII lowercasing (`toLowerCase` for the name charset the system
uses). -/
def toLowerCase (s : String) : String := String.mk (s.toList.map Char.toLower)

/-- `s.replace(/^tell\//, "")`: strip one leading `tell/`. -/
def stripTellTag (s : String) : String :=
  match s.toList with
  | 't' :: 'e' :: 'l' :: 'l' :: '/' :: rest => String.mk rest
  | _ => s

/-! ## Delivery policy filter (`checkDeliveryPolicy`) -/

/-- The slice of the channel configuration `checkDeliveryPolicy` reads
(`config.channels.clawtell`); `none` models an absent field, handled by
`??` defaulting in the code. -/
structure ClawTellPolicyConfig where
  deliveryPolicy : Option String
  deliveryBlocklist : Option (List String)
  deliveryAllowlist : Option (List String)
deriving Repr

/-- The `{ allowed, reason? }` record `checkDeliveryPolicy` returns. -/
structure PolicyDecision where
  allowed : Bool
  reason : Option String
deriving DecidableEq, Repr

/-- Sender normalization used by the policy filter:
`sender.toLowerCase().replace(/^tell\//, "")`. -/
def normalizeSender (sender : String) : String := stripTellTag (toLowerCase sender)

/-- `checkDeliveryPolicy`: accept/reject a sender under the configured
delivery policy (`everyone` / `allowlist` / `blocklist`, defaulting to
`everyone`; unknown values allow). -/
def checkDeliveryPolicy (sender : String) (cfg : ClawTellPolicyConfig) : PolicyDecision :=
  let policy := cfg.deliveryPolicy.getD "everyone"
  let normalizedSender := normalizeSender sender
  if policy = "everyone" then
    let blocklist := cfg.deliveryBlocklist.getD []
    if (blocklist.map toLowerCase).contains normalizedSender then
      { allowed := false, reason := some "sender on blocklist" }
    else { allowed := true, reason := none }
  else if policy = "allowlist" then
    let allowlist := cfg.deliveryAllowlist.getD []
    if (allowlist.map toLowerCase).contains normalizedSender then
      { allowed := true, reason := none }
    else { allowed := false, reason := some "sender not on allowlist" }
  else if policy = "blocklist" then
    let blocklistOnly := cfg.deliveryBlocklist.getD []
    if (blocklistOnly.map toLowerCase).contains normalizedSender then
      { allowed := false, reason := some "sender on blocklist" }
    else { allowed := true, reason := none }
  else { allowed := true, reason := none }

/-! ## Route table and resolution -/

/-- `ClawTellRouteEntry`: target agent, forward flag, and the optional
per-route reply key. -/
structure ClawTellRouteEntry where
  agent : String
  forward : Bool
  apiKey : Option String := none
deriving DecidableEq, Repr

/-- `ClawTellRouting`: a JS object keyed by recipient name, modeled as an
association list with lookup by first matching key. -/
abbrev ClawTellRouting := List (String × ClawTellRouteEntry)

/-- The fields of `ResolvedClawTellAccount` the poll loop reads. -/
structure ResolvedClawTellAccount where
  accountId : String
  apiKey : String
  tellName : Option String
  routing : ClawTellRouting
deriving Repr

/-- `resolveRoute`: exact match, then `_default`, then the hardcoded
fallback `{ agent: "main", forward: true }`. -/
def resolveRoute (toName : String) (account : ResolvedClawTellAccount) : ClawTellRouteEntry :=
  match account.routing.lookup toName with
  | some entry => entry
  | none =>
    match account.routing.lookup "_default" with
    | some entry => entry
    | none => { agent := "main", forward := true }

/-- `resolveReplyKey`: `route.apiKey || accountApiKey`. -/
def resolveReplyKey (route : ClawTellRouteEntry) (accountApiKey : String) : String :=
  jsOrOptStr route.apiKey accountApiKey

/-! ## Attachment resolver (`resolveAttachment`) -/

def MAX_ATTACHMENT_BYTES : Nat := 20 * 1024 * 1024

/-- An attachment descriptor carried by a message. -/
structure ClawTellAttachment where
  fileId : String
  filename : String
  mime_type : String
deriving DecidableEq, Repr

/-- A staged attachment as returned by `resolveAttachment`. -/
structure ResolvedAttachment where
  filename : String
  mime_type : String
  localPath : String
deriving DecidableEq, Repr

/-- The fileId validation gate:
`!fileId || fileId.length > 100 || !/^[a-zA-Z0-9_-]+$/.test(fileId)`
rejects. -/
def isValidFileId (s : String) : Bool :=
  s ≠ "" && s.length ≤ 100 &&
    s.toList.all (fun c => c.isAlphanum || c = '_' || c = '-')

/-- Filename sanitization:
`filename.replace(/[^a-zA-Z0-9._-]/g, "_").slice(0, 200)`. -/
def sanitizeFilename (s : String) : String :=
  String.mk
    ((s.toList.map
      (fun c => if c.isAlphanum || c = '.' || c = '_' || c = '-' then c else '_')).take 200)

/-- Staging path under the `clawtell-attachments` temp directory:
`` `${tmpDir}/${safeFileId}_${safeName}` ``. -/
def attachmentLocalPath (att : ClawTellAttachment) : String :=
  "clawtell-attachments/" ++ att.fileId ++ "_" ++ sanitizeFilename att.filename

/-- The HTTP environment one `resolveAttachment` call observes: the
signed-URL request and the download response. -/
structure AttachmentFetchEnv where
  signedUrlOk : Bool
  signedUrl : Option String
  downloadOk : Bool
  downloadHasBody : Bool
  contentLengthHeader : Option String
  bodyLength : Nat
deriving Repr

/-- What `resolveAttachment` returned, plus whether the `fs.writeFile`
call was reached. -/
structure AttachmentResult where
  returned : Option ResolvedAttachment
  wroteFile : Bool
deriving DecidableEq, Repr

/-- The declared size check input:
`parseInt(dlResp.headers.get("content-length") || "0", 10)` — a missing or
empty header falls back to `"0"`; `none` models `NaN`. -/
def declaredContentLength (env : AttachmentFetchEnv) : Option Int :=
  jsParseInt10 (jsOrOptStr env.contentLengthHeader "0")

/-- `resolveAttachment`: validate the fileId, obtain a signed URL, download
with the declared-size precheck and the post-download size cap, and stage
the file; every failure path returns `null` without writing. -/
def resolveAttachment (att : ClawTellAttachment) (env : AttachmentFetchEnv) :
    AttachmentResult :=
  if ¬ isValidFileId att.fileId then { returned := none, wroteFile := false }
  else if ¬ env.signedUrlOk then { returned := none, wroteFile := false }
  else if ¬ jsTruthy env.signedUrl then { returned := none, wroteFile := false }
  else if ¬ (env.downloadOk && env.downloadHasBody) then
    { returned := none, wroteFile := false }
  else if (match declaredContentLength env with
           | some n => decide (n > (MAX_ATTACHMENT_BYTES : Int))
           | none => false) then
    { returned := none, wroteFile := false }
  else if env.bodyLength > MAX_ATTACHMENT_BYTES then
    { returned := none, wroteFile := false }
  else
    { returned := some { filename := att.filename, mime_type := att.mime_type,
                         localPath := attachmentLocalPath att },
      wroteFile := true }

/-! ## Account-level poll cycle (`pollAccountLoop`, new-message phase)

The per-message body of the loop over `pollAccountMessages` results: policy
filter → route resolution → dispatch → push to `ackedIds` or `enqueue`.
Forwarding and attachment staging are best-effort and touch neither the
queue nor the ack batch, so they carry no state here; the dispatch pipeline
is an oracle giving the boolean `dispatchToAgent` returns. -/

/-- A message as delivered by `poll-account` (or the SSE stream). -/
structure ClawTellMessage where
  id : String
  from_ : String
  to_name : Option String
  subject : Option String
  body : String
  createdAt : String
  replyToMessageId : Option String
  attachments : List ClawTellAttachment
deriving DecidableEq, Repr

/-- Everything the per-message body reads besides the message: the resolved
account, the policy configuration, the dispatch oracle, and the clock value
used for `queuedAt`. -/
structure PollCtx where
  account : ResolvedClawTellAccount
  policyCfg : ClawTellPolicyConfig
  dispatchOk : ClawTellMessage → Bool
  now : String

/-- `(msg.from || "").replace(/^tell\//, "")`. -/
def senderNameOf (msg : ClawTellMessage) : String := stripTellTag msg.from_

/-- `msg.to_name || account.tellName || ""`. -/
def toNameOf (account : ResolvedClawTellAccount) (msg : ClawTellMessage) : String :=
  jsOrOptStr msg.to_name (jsOrOptStr account.tellName "")

/-- `route.agent || "main"`. -/
def agentNameOf (ctx : PollCtx) (msg : ClawTellMessage) : String :=
  jsOrStr (resolveRoute (toNameOf ctx.account msg) ctx.account).agent "main"

/-- The formatted delivery text (`messageContent` in the loop body). -/
def formatMessageContent (senderName toName : String) (subject : Option String)
    (body : String) : String :=
  if jsTruthy subject then
    "🦞🦞 *ClawTell Delivery* 🦞🦞\n\nfrom *tell/" ++ senderName ++ "*\nto: *" ++
      toName ++ "*\n\n*Subject:* " ++ subject.getD "" ++ "\n\n" ++ body
  else
    "🦞🦞 *ClawTell Delivery* 🦞🦞\n\nfrom *tell/" ++ senderName ++ "*\nto: *" ++
      toName ++ "*\n\n" ++ body

/-- The `QueuedMessage` record built at the `enqueue` call of the loop
body (initial dispatch failure, non-default agent). -/
def queuedMessageOf (ctx : PollCtx) (msg : ClawTellMessage) : QueuedMessage :=
  let senderName := senderNameOf msg
  let toName := toNameOf ctx.account msg
  let route := resolveRoute toName ctx.account
  let agentName := jsOrStr route.agent "main"
  let replyKey := resolveReplyKey route ctx.account.apiKey
  { id := msg.id
    from_ := senderName
    toName := toName
    agent := agentName
    forward := route.forward
    content := formatMessageContent senderName toName msg.subject msg.body
    rawBody := msg.body
    subject := msg.subject
    createdAt := msg.createdAt
    queuedAt := ctx.now
    attempts := 1
    lastError := "initial dispatch failed"
    accountId := ctx.account.accountId
    apiKey := ctx.account.apiKey
    replyApiKey := if replyKey ≠ ctx.account.apiKey then some replyKey else none
    replyToMessageId := msg.replyToMessageId }

/-- One iteration of `for (const msg of messages)`: threads the queue file
and the `ackedIds` accumulator exactly as the source's branches do. -/
def processOneMessage (ctx : PollCtx) (st : QueueFile × List String)
    (msg : ClawTellMessage) : QueueFile × List String :=
  let q := st.1
  let ackedIds := st.2
  let deliveryCheck := checkDeliveryPolicy (senderNameOf msg) ctx.policyCfg
  if deliveryCheck.allowed = false then (q, ackedIds ++ [msg.id])
  else if ctx.dispatchOk msg then (q, ackedIds ++ [msg.id])
  else if agentNameOf ctx msg ≠ "main" then
    (enqueue q (queuedMessageOf ctx msg), ackedIds ++ [msg.id])
  else (q, ackedIds)

/-- The whole new-message phase of one cycle: fold the per-message body
over the polled batch, producing the final queue file and the `ackedIds`
list handed to the single `batchAck` call. -/
def processNewMessages (ctx : PollCtx) (q : QueueFile)
    (messages : List ClawTellMessage) : QueueFile × List String :=
  messages.foldl (processOneMessage ctx) (q, [])

/-- Specification-side classifier: the disposition the loop body assigns a
message. -/
inductive Disposition where
  | rejected
  | dispatched
  | queued
  | leftUnacked
deriving DecidableEq, Repr

/-- The disposition of one message under a context, read off the branch
structure of the loop body. -/
def disposition (ctx : PollCtx) (msg : ClawTellMessage) : Disposition :=
  if (checkDeliveryPolicy (senderNameOf msg) ctx.policyCfg).allowed = false then
    .rejected
  else if ctx.dispatchOk msg then .dispatched
  else if agentNameOf ctx msg ≠ "main" then .queued
  else .leftUnacked

/-! ## SSE failover loop (`sseAccountLoop`) -/

def MAX_SSE_FAILURES : Nat := 3

/-- What happened on one streaming attempt: the connection failed outright
(fetch threw, non-2xx, or missing body), the stream was read to a clean
end, or the stream errored after a successful connection. -/
inductive SseOutcome where
  | connectFailed
  | streamEnded
  | streamErrored
deriving DecidableEq, Repr

/-- What one loop iteration did after the retry-queue phase: a fallback
HTTP polling cycle followed by the poll-interval sleep, or a streaming
attempt followed by the reconnect delay. -/
inductive SseIterAction where
  | fallbackPollCycle (sleepMs : Nat)
  | streamAttempt (connected : Bool) (reconnectDelayMs : Nat)
deriving DecidableEq, Repr

/-- `Math.min(2000 * consecutiveFailures, 10000)`. -/
def sseReconnectDelay (consecutiveFailures : Nat) : Nat :=
  min (2000 * consecutiveFailures) 10000

/-- One iteration of `sseAccountLoop`'s connection logic, as a transition
on the `consecutiveFailures` counter: at `MAX_SSE_FAILURES` the iteration
runs one HTTP polling cycle, resets the counter and sleeps the poll
interval; otherwise it attempts the stream — a connection failure
increments the counter, a successful connection resets it to zero (a later
stream error then counts as one fresh failure) — and sleeps the reconnect
delay computed from the updated counter. -/
def sseIterate (pollIntervalMs : Nat) (consecutiveFailures : Nat)
    (outcome : SseOutcome) : Nat × SseIterAction :=
  if consecutiveFailures ≥ MAX_SSE_FAILURES then
    (0, .fallbackPollCycle pollIntervalMs)
  else
    match outcome with
    | .connectFailed =>
      let f := consecutiveFailures + 1
      (f, .streamAttempt false (sseReconnectDelay f))
    | .streamEnded => (0, .streamAttempt true (sseReconnectDelay 0))
    | .streamErrored => (1, .streamAttempt true (sseReconnectDelay 1))

/-! ## Concrete fixtures used by the witnesses and counterexamples -/

/-- A sample queued entry with a chosen id and attempt count. -/
def sampleQueued (i : String) (att : Nat) : QueuedMessage :=
  { id := i, from_ := "bob", toName := "helper-name", agent := "helper",
    forward := true, content := "c", rawBody := "r", subject := none,
    createdAt := "t0", queuedAt := "t1", attempts := att, lastError := "e",
    accountId := "acc", apiKey := "k", replyApiKey := none,
    replyToMessageId := none }

def sampleRouteHelper : ClawTellRouteEntry := { agent := "helper", forward := false }

def sampleRouteAux : ClawTellRouteEntry := { agent := "aux", forward := true }

/-- Account whose routing has an exact entry for `alice`. -/
def accountExact : ResolvedClawTellAccount :=
  { accountId := "a", apiKey := "k", tellName := some "alice",
    routing := [("alice", sampleRouteHelper)] }

/-- Account whose routing only has a `_default` entry. -/
def accountDefaulted : ResolvedClawTellAccount :=
  { accountId := "a", apiKey := "k", tellName := some "alice",
    routing := [("_default", sampleRouteAux)] }

/-- Account with an empty routing table. -/
def accountBare : ResolvedClawTellAccount :=
  { accountId := "a", apiKey := "k", tellName := some "alice", routing := [] }

/-- Account routing `alice` to the default agent `main`. -/
def accountMain : ResolvedClawTellAccount :=
  { accountId := "default", apiKey := "k", tellName := some "alice",
    routing := [("alice", { agent := "main", forward := true })] }

/-- Policy configuration with every field absent (defaults apply). -/
def openPolicyCfg : ClawTellPolicyConfig :=
  { deliveryPolicy := none, deliveryBlocklist := none, deliveryAllowlist := none }

/-- Poll context whose dispatch oracle always fails. -/
def failingCtx : PollCtx :=
  { account := accountMain, policyCfg := openPolicyCfg,
    dispatchOk := fun _ => false, now := "t2" }

/-- Failing-dispatch context whose routing sends `alice` to the offline
agent `helper`. -/
def helperCtx : PollCtx :=
  { account := accountExact, policyCfg := openPolicyCfg,
    dispatchOk := fun _ => false, now := "t2" }

/-- A message from `tell/bob` to `alice`. -/
def sampleMessage : ClawTellMessage :=
  { id := "m1", from_ := "tell/bob", to_name := some "alice", subject := none,
    body := "hi", createdAt := "t0", replyToMessageId := none, attachments := [] }

def sampleAttachment : ClawTellAttachment :=
  { fileId := "f1", filename := "a.txt", mime_type := "text/plain" }

/-- Download response declaring 30,000,000 bytes (above the 20 MB cap). -/
def oversizedHeaderEnv : AttachmentFetchEnv :=
  { signedUrlOk := true, signedUrl := some "u", downloadOk := true,
    downloadHasBody := true, contentLengthHeader := some "30000000",
    bodyLength := 0 }

/-- Download response whose actual body is 30,000,000 bytes. -/
def oversizedBodyEnv : AttachmentFetchEnv :=
  { signedUrlOk := true, signedUrl := some "u", downloadOk := true,
    downloadHasBody := true, contentLengthHeader := some "100",
    bodyLength := 30000000 }

/-! ## Helper lemmas on the queue operations -/

theorem truncateDeadLetter_length (l : List QueuedMessage) :
    (truncateDeadLetter l).length = min l.length 100 := by
  unfold truncateDeadLetter
  split <;> simp <;> omega

theorem truncateDeadLetter_sublist (l : List QueuedMessage) :
    List.Sublist (truncateDeadLetter l) l := by
  unfold truncateDeadLetter
  split
  · exact List.drop_sublist _ _
  · exact List.Sublist.refl _

theorem mem_truncateDeadLetter_append (l : List QueuedMessage) (a : QueuedMessage) :
    a ∈ truncateDeadLetter (l ++ [a]) := by
  unfold truncateDeadLetter
  split
  · next h =>
    have hlen : (l ++ [a]).length - 100 ≤ l.length := by
      simp only [List.length_append, List.length_singleton]
      omega
    rw [List.drop_append_of_le_length hlen]
    simp
  · simp

theorem count_truncateDeadLetter_append (l : List QueuedMessage) (a : QueuedMessage)
    (h : a ∉ l) : (truncateDeadLetter (l ++ [a])).count a = 1 := by
  have hle : (truncateDeadLetter (l ++ [a])).count a ≤ (l ++ [a]).count a :=
    (truncateDeadLetter_sublist (l ++ [a])).count_le a
  have happ : (l ++ [a]).count a = 1 := by
    rw [List.count_append, List.count_eq_zero.mpr h]
    simp
  have hpos : 0 < (truncateDeadLetter (l ++ [a])).count a :=
    List.count_pos_iff.mpr (mem_truncateDeadLetter_append l a)
  omega

theorem bumpFirst_mem (l : List QueuedMessage) (msgId error : String)
    (msg : QueuedMessage) (h : l.find? (fun m => m.id == msgId) = some msg) :
    { msg with attempts := msg.attempts + 1, lastError := error } ∈
      bumpFirst msgId error l := by
  induction l with
  | nil => simp at h
  | cons a rest ih =>
    by_cases ha : a.id == msgId
    · simp only [List.find?, ha] at h
      injection h with h
      subst h
      simp [bumpFirst, ha]
    · rw [Bool.not_eq_true] at ha
      simp only [List.find?, ha] at h
      simp only [bumpFirst, ha, Bool.false_eq_true, if_false, List.mem_cons]
      exact Or.inr (ih h)

/-! ## Claim theorems: the local retry queue -/

/-- **C10**: `readQueue` is total and defaults to the empty queue: a missing
or unreadable file (`raw = none`) and a file whose contents `JSON.parse`
rejects (`parse s = none`) both produce `{ pending: [], deadLetter: [] }`
instead of an error, so the queue operations proceed from an empty store
after file corruption. -/
theorem readQueue_total_defaults_empty (raw : Option String)
    (parse : String → Option QueueFile) :
    (raw = none → readQueue raw parse = emptyQueueFile) ∧
    (∀ s, raw = some s → parse s = none → readQueue raw parse = emptyQueueFile) := by
  refine ⟨fun h => ?_, fun s hs hp => ?_⟩
  · subst h; rfl
  · subst hs; simp [readQueue, hp]

/-- Witness for C10 at concrete inputs: a missing file and an unparseable
file both read as the empty queue. -/
theorem readQueue_total_defaults_empty_witness :
    readQueue none (fun _ => none) = emptyQueueFile ∧
    readQueue (some "not json") (fun _ => none) = emptyQueueFile :=
  ⟨(readQueue_total_defaults_empty none (fun _ => none)).1 rfl,
   (readQueue_total_defaults_empty (some "not json") (fun _ => none)).2
     "not json" rfl rfl⟩

/-- **C4 counterexample**: on a queue state whose pending list already holds
two entries with the same id (a state `JSON.parse` can deliver, which no
operation repairs), calling `enqueue` twice with that id is a no-op and
leaves two pending entries — not exactly one as the claim states for every
queue state. -/
theorem enqueue_twice_duplicate_state_counterexample :
    ¬ ((enqueue (enqueue
          { pending := [sampleQueued "x" 1, sampleQueued "x" 2], deadLetter := [] }
          (sampleQueued "x" 1)) (sampleQueued "x" 1)).pending.countP
        (fun m => m.id == "x") = 1) := by decide

/-- **C4 (amended)**: for every queue state in which at most one pending
entry bears the message's id — which includes every state the queue
operations produce — calling `enqueue` twice with the same id results in
exactly one pending entry with that id, and the second call is a no-op
leaving the stored queue unchanged. -/
theorem enqueue_idempotent (q : QueueFile) (msg : QueuedMessage)
    (h : q.pending.countP (fun m => m.id == msg.id) ≤ 1) :
    (enqueue (enqueue q msg) msg).pending.countP (fun m => m.id == msg.id) = 1 ∧
    enqueue (enqueue q msg) msg = enqueue q msg := by
  by_cases hany : q.pending.any (fun m => m.id == msg.id)
  · have heq : enqueue q msg = q := by simp [enqueue, hany]
    have hpos : 0 < q.pending.countP (fun m => m.id == msg.id) := by
      rcases List.any_eq_true.mp hany with ⟨a, ha, hpa⟩
      exact List.countP_pos_iff.mpr ⟨a, ha, hpa⟩
    rw [heq, heq]
    exact ⟨by omega, rfl⟩
  · have hzero : q.pending.countP (fun m => m.id == msg.id) = 0 := by
      rw [List.countP_eq_zero]
      intro a ha hpa
      exact hany (List.any_eq_true.mpr ⟨a, ha, hpa⟩)
    have heq1 : enqueue q msg = { q with pending := q.pending ++ [msg] } := by
      simp [enqueue, hany]
    have hany2 : (q.pending ++ [msg]).any (fun m => m.id == msg.id) := by
      rw [List.any_append]
      simp
    have heq2 : enqueue { q with pending := q.pending ++ [msg] } msg =
        { q with pending := q.pending ++ [msg] } := by
      simp [enqueue, hany2]
    rw [heq1, heq2]
    refine ⟨?_, rfl⟩
    rw [List.countP_append, hzero]
    simp

/-- Witness for the amended C4 at the empty queue. -/
theorem enqueue_idempotent_witness :
    (enqueue (enqueue emptyQueueFile (sampleQueued "x" 1))
        (sampleQueued "x" 1)).pending.countP
      (fun m => m.id == (sampleQueued "x" 1).id) = 1 ∧
    enqueue (enqueue emptyQueueFile (sampleQueued "x" 1)) (sampleQueued "x" 1) =
      enqueue emptyQueueFile (sampleQueued "x" 1) :=
  enqueue_idempotent emptyQueueFile (sampleQueued "x" 1) (by decide)

/-- **C3**: when `markAttempt` finds the pending entry and raising its
attempt count reaches `MAX_ATTEMPTS` (10), the call removes the entry from
pending, appends the updated entry to the dead-letter list exactly once
(its dead-letter count is one when it was not already present), and returns
it; when the raised count stays below 10, the call keeps the (bumped) entry
in pending, leaves the dead-letter list unchanged and returns `null`. -/
theorem markAttempt_deadLetter_at_cap (q : QueueFile) (msgId error : String)
    (msg : QueuedMessage)
    (hfind : q.pending.find? (fun m => m.id == msgId) = some msg) :
    (msg.attempts + 1 = MAX_ATTEMPTS →
      markAttempt q msgId error =
        ({ pending := q.pending.filter (fun m => m.id != msgId),
           deadLetter := truncateDeadLetter (q.deadLetter ++
             [{ msg with attempts := msg.attempts + 1, lastError := error }]) },
         some { msg with attempts := msg.attempts + 1, lastError := error }) ∧
      (∀ m ∈ (markAttempt q msgId error).1.pending, ¬ m.id = msgId) ∧
      ({ msg with attempts := msg.attempts + 1, lastError := error } ∉ q.deadLetter →
        (markAttempt q msgId error).1.deadLetter.count
          { msg with attempts := msg.attempts + 1, lastError := error } = 1)) ∧
    (msg.attempts + 1 < MAX_ATTEMPTS →
      (markAttempt q msgId error).2 = none ∧
      (markAttempt q msgId error).1.deadLetter = q.deadLetter ∧
      { msg with attempts := msg.attempts + 1, lastError := error } ∈
        (markAttempt q msgId error).1.pending) := by
  constructor
  · intro hcap
    have hge : MAX_ATTEMPTS ≤ msg.attempts + 1 := le_of_eq hcap.symm
    have hres : markAttempt q msgId error =
        ({ pending := q.pending.filter (fun m => m.id != msgId),
           deadLetter := truncateDeadLetter (q.deadLetter ++
             [{ msg with attempts := msg.attempts + 1, lastError := error }]) },
         some { msg with attempts := msg.attempts + 1, lastError := error }) := by
      simp only [markAttempt, hfind]
      rw [if_pos hge]
    refine ⟨hres, ?_, ?_⟩
    · intro m hm
      rw [hres] at hm
      simp only [List.mem_filter, bne_iff_ne, ne_eq, decide_eq_true_eq] at hm
      exact hm.2
    · intro hnot
      rw [hres]
      exact count_truncateDeadLetter_append q.deadLetter _ hnot
  · intro hlt
    have hres : markAttempt q msgId error =
        ({ q with pending := bumpFirst msgId error q.pending }, none) := by
      simp only [markAttempt, hfind]
      rw [if_neg (by omega)]
    refine ⟨by rw [hres], by rw [hres], ?_⟩
    rw [hres]
    exact bumpFirst_mem q.pending msgId error msg hfind

/-- Witness for C3: a queue whose only pending entry is at 9 attempts
dead-letters on the next `markAttempt`, while one at 1 attempt stays
pending and returns `null`. -/
theorem markAttempt_deadLetter_at_cap_witness :
    (markAttempt { pending := [sampleQueued "x" 9], deadLetter := [] } "x" "boom").2 =
      some { sampleQueued "x" 9 with attempts := 10, lastError := "boom" } ∧
    (markAttempt { pending := [sampleQueued "x" 9], deadLetter := [] }
        "x" "boom").1.deadLetter.count
      { sampleQueued "x" 9 with attempts := 10, lastError := "boom" } = 1 ∧
    (markAttempt { pending := [sampleQueued "x" 1], deadLetter := [] } "x" "boom").2 =
      none := by
  have h9 := (markAttempt_deadLetter_at_cap
    { pending := [sampleQueued "x" 9], deadLetter := [] } "x" "boom"
    (sampleQueued "x" 9) (by decide)).1 (by decide)
  have h1 := (markAttempt_deadLetter_at_cap
    { pending := [sampleQueued "x" 1], deadLetter := [] } "x" "boom"
    (sampleQueued "x" 1) (by decide)).2 (by decide)
  refine ⟨?_, h9.2.2 (by decide), h1.1⟩
  rw [h9.1]
  rfl

/-- **C9**: every queue operation preserves the bound of 100 entries on the
stored dead-letter list, and when `markAttempt` would grow the list past
100 it keeps exactly the most-recent entries by dropping the oldest
(`slice(-100)`). -/
theorem deadLetter_bound_preserved (q : QueueFile) (h : q.deadLetter.length ≤ 100) :
    (∀ msg, (enqueue q msg).deadLetter.length ≤ 100) ∧
    (∀ msgId, (dequeue q msgId).deadLetter.length ≤ 100) ∧
    (∀ msgId error, (markAttempt q msgId error).1.deadLetter.length ≤ 100) ∧
    (∀ msgId error msg, q.pending.find? (fun m => m.id == msgId) = some msg →
      MAX_ATTEMPTS ≤ msg.attempts + 1 →
      100 < q.deadLetter.length + 1 →
      (markAttempt q msgId error).1.deadLetter =
        (q.deadLetter ++
          [{ msg with attempts := msg.attempts + 1, lastError := error }]).drop
          (q.deadLetter.length + 1 - 100)) := by
  refine ⟨fun msg => ?_, fun msgId => ?_, fun msgId error => ?_, ?_⟩
  · unfold enqueue
    split <;> simpa using h
  · simpa [dequeue] using h
  · rcases hfind : q.pending.find? (fun m => m.id == msgId) with _ | msg
    · simp only [markAttempt, hfind]
      exact h
    · simp only [markAttempt, hfind]
      split
      · simp only [truncateDeadLetter_length, List.length_append,
          List.length_singleton]
        omega
      · exact h
  · intro msgId error msg hfind hge hgrow
    have hres : (markAttempt q msgId error).1.deadLetter =
        truncateDeadLetter (q.deadLetter ++
          [{ msg with attempts := msg.attempts + 1, lastError := error }]) := by
      simp only [markAttempt, hfind]
      rw [if_pos hge]
    rw [hres]
    unfold truncateDeadLetter
    rw [if_pos (by simp; omega)]
    simp

/-- Witness for C9: with a dead-letter list already at 100 entries,
dead-lettering one more drops the oldest entry and keeps the bound. -/
theorem deadLetter_bound_preserved_witness :
    ((markAttempt
        { pending := [sampleQueued "x" 9],
          deadLetter := List.replicate 100 (sampleQueued "d" 10) }
        "x" "boom").1.deadLetter.length ≤ 100) ∧
    (markAttempt
        { pending := [sampleQueued "x" 9],
          deadLetter := List.replicate 100 (sampleQueued "d" 10) }
        "x" "boom").1.deadLetter =
      (List.replicate 100 (sampleQueued "d" 10) ++
        [{ sampleQueued "x" 9 with attempts := 10, lastError := "boom" }]).drop
        ((List.replicate 100 (sampleQueued "d" 10)).length + 1 - 100) := by
  have hb := deadLetter_bound_preserved
    { pending := [sampleQueued "x" 9],
      deadLetter := List.replicate 100 (sampleQueued "d" 10) } (by simp)
  exact ⟨hb.2.2.1 "x" "boom",
    hb.2.2.2 "x" "boom" (sampleQueued "x" 9) (by decide) (by decide) (by simp)⟩

/-! ## Claim theorems: routing, policy filter, attachments, SSE failover -/

/-- **C5**: route resolution is deterministic and total: the exact-match
entry when one exists, otherwise the `_default` entry when present,
otherwise the hardcoded fallback `{ agent: "main", forward: true }`; being
a total function, resolution always yields exactly one route entry. -/
theorem resolveRoute_deterministic (toName : String)
    (account : ResolvedClawTellAccount) :
    (∀ e, account.routing.lookup toName = some e →
      resolveRoute toName account = e) ∧
    (account.routing.lookup toName = none →
      ∀ e, account.routing.lookup "_default" = some e →
        resolveRoute toName account = e) ∧
    (account.routing.lookup toName = none →
      account.routing.lookup "_default" = none →
      resolveRoute toName account =
        { agent := "main", forward := true, apiKey := none }) := by
  refine ⟨fun e he => ?_, fun hn e he => ?_, fun hn hd => ?_⟩
  · simp [resolveRoute, he]
  · simp [resolveRoute, hn, he]
  · simp [resolveRoute, hn, hd]

/-- Witness for C5 on three concrete routing tables: exact match,
`_default` fallback, and the hardcoded fallback. -/
theorem resolveRoute_deterministic_witness :
    resolveRoute "alice" accountExact = sampleRouteHelper ∧
    resolveRoute "unknown" accountDefaulted = sampleRouteAux ∧
    resolveRoute "unknown" accountBare =
      { agent := "main", forward := true, apiKey := none } :=
  ⟨(resolveRoute_deterministic "alice" accountExact).1 sampleRouteHelper (by decide),
   (resolveRoute_deterministic "unknown" accountDefaulted).2.1 (by decide)
     sampleRouteAux (by decide),
   (resolveRoute_deterministic "unknown" accountBare).2.2 (by decide) (by decide)⟩

/-- **C6**: the delivery policy filter rejects exactly when (`everyone`:
normalized sender on the lowercased blocklist), (`allowlist`: normalized
sender not on the lowercased allowlist), (`blocklist`: behaving identically
to `everyone`); any other policy value allows the sender. -/
theorem checkDeliveryPolicy_modes (sender : String) (cfg : ClawTellPolicyConfig) :
    ((checkDeliveryPolicy sender cfg).allowed = false ↔
      ((cfg.deliveryPolicy.getD "everyone" = "everyone" ∨
          cfg.deliveryPolicy.getD "everyone" = "blocklist") ∧
        ((cfg.deliveryBlocklist.getD []).map toLowerCase).contains
          (normalizeSender sender) = true) ∨
      (cfg.deliveryPolicy.getD "everyone" = "allowlist" ∧
        ((cfg.deliveryAllowlist.getD []).map toLowerCase).contains
          (normalizeSender sender) = false)) ∧
    checkDeliveryPolicy sender { cfg with deliveryPolicy := some "blocklist" } =
      checkDeliveryPolicy sender { cfg with deliveryPolicy := some "everyone" } ∧
    (cfg.deliveryPolicy.getD "everyone" ≠ "everyone" →
      cfg.deliveryPolicy.getD "everyone" ≠ "allowlist" →
      cfg.deliveryPolicy.getD "everyone" ≠ "blocklist" →
      checkDeliveryPolicy sender cfg = { allowed := true, reason := none }) := by
  refine ⟨?_, ?_, fun h1 h2 h3 => ?_⟩
  · simp only [checkDeliveryPolicy]
    split_ifs with h1 h2 h3 h4 h5 h6 <;> simp_all
  · simp only [checkDeliveryPolicy]
    simp
  · simp [checkDeliveryPolicy, h1, h2, h3]

/-- Witness for C6: an unrecognized policy value allows a sender even when
that sender is on the blocklist. -/
theorem checkDeliveryPolicy_modes_witness :
    checkDeliveryPolicy "bob"
      { deliveryPolicy := some "weird", deliveryBlocklist := some ["bob"],
        deliveryAllowlist := none } =
      { allowed := true, reason := none } :=
  (checkDeliveryPolicy_modes "bob"
    { deliveryPolicy := some "weird", deliveryBlocklist := some ["bob"],
      deliveryAllowlist := none }).2.2 (by decide) (by decide) (by decide)

/-- **C7**: an attachment whose download response declares a content length
above the 20 MB cap, or whose downloaded body exceeds the cap, makes
`resolveAttachment` return `null` without ever reaching the file write. -/
theorem attachment_oversize_never_written (att : ClawTellAttachment)
    (env : AttachmentFetchEnv)
    (h : (∃ n, declaredContentLength env = some n ∧
          (MAX_ATTACHMENT_BYTES : Int) < n) ∨
        MAX_ATTACHMENT_BYTES < env.bodyLength) :
    resolveAttachment att env = { returned := none, wroteFile := false } := by
  unfold resolveAttachment
  split_ifs with h1 h2 h3 h4 h5 h6 <;> try rfl
  exfalso
  rcases h with ⟨n, hn, hgt⟩ | hbody
  · rw [hn] at h5
    simp only [decide_eq_true_eq] at h5
    omega
  · exact h6 hbody

/-- Witness for C7: a declared `content-length` of 30,000,000 bytes and an
actual body of 30,000,000 bytes are both rejected without a write. -/
theorem attachment_oversize_never_written_witness :
    resolveAttachment sampleAttachment oversizedHeaderEnv =
      { returned := none, wroteFile := false } ∧
    resolveAttachment sampleAttachment oversizedBodyEnv =
      { returned := none, wroteFile := false } :=
  ⟨attachment_oversize_never_written sampleAttachment oversizedHeaderEnv
     (Or.inl ⟨30000000, by decide, by decide⟩),
   attachment_oversize_never_written sampleAttachment oversizedBodyEnv
     (Or.inr (by decide))⟩

/-- **C8**: the SSE loop increments the failure counter on every connection
failure; at 3 consecutive failures an iteration performs one polling cycle
and resets the counter to zero, and the following iteration attempts the
stream again; the counter resets to zero on a successful connection; and
the reconnect delay grows linearly with the failure count (2 s per failure)
capped at 10 seconds. -/
theorem sse_failover_behavior (pollIntervalMs : Nat) :
    (∀ f, f < MAX_SSE_FAILURES →
      sseIterate pollIntervalMs f .connectFailed =
        (f + 1, .streamAttempt false (sseReconnectDelay (f + 1)))) ∧
    (∀ f o, MAX_SSE_FAILURES ≤ f →
      sseIterate pollIntervalMs f o = (0, .fallbackPollCycle pollIntervalMs)) ∧
    (∀ f o o', MAX_SSE_FAILURES ≤ f →
      ∃ c d, (sseIterate pollIntervalMs
        (sseIterate pollIntervalMs f o).1 o').2 = .streamAttempt c d) ∧
    (∀ f, f < MAX_SSE_FAILURES →
      sseIterate pollIntervalMs f .streamEnded =
        (0, .streamAttempt true (sseReconnectDelay 0))) ∧
    (∀ f, f < MAX_SSE_FAILURES →
      sseIterate pollIntervalMs f .streamErrored =
        (1, .streamAttempt true (sseReconnectDelay 1))) ∧
    (∀ f, f ≤ 5 → sseReconnectDelay f = 2000 * f) ∧
    (∀ f, 5 ≤ f → sseReconnectDelay f = 10000) := by
  refine ⟨fun f hf => ?_, fun f o hf => ?_, fun f o o' hf => ?_,
    fun f hf => ?_, fun f hf => ?_, fun f hf => ?_, fun f hf => ?_⟩
  · unfold sseIterate
    rw [if_neg (by omega)]
  · unfold sseIterate
    rw [if_pos hf]
  · have hreset : sseIterate pollIntervalMs f o = (0, .fallbackPollCycle pollIntervalMs) := by
      unfold sseIterate
      rw [if_pos hf]
    rw [hreset]
    cases o' <;> exact ⟨_, _, rfl⟩
  · unfold sseIterate
    rw [if_neg (by omega)]
  · unfold sseIterate
    rw [if_neg (by omega)]
  · unfold sseReconnectDelay
    omega
  · unfold sseReconnectDelay
    omega

/-- Witness for C8 at concrete counter values. -/
theorem sse_failover_behavior_witness :
    sseIterate 30000 1 SseOutcome.connectFailed =
      (2, SseIterAction.streamAttempt false (sseReconnectDelay 2)) ∧
    sseIterate 30000 3 SseOutcome.connectFailed =
      (0, SseIterAction.fallbackPollCycle 30000) ∧
    sseIterate 30000 0 SseOutcome.streamEnded =
      (0, SseIterAction.streamAttempt true (sseReconnectDelay 0)) ∧
    sseReconnectDelay 2 = 2000 * 2 ∧
    sseReconnectDelay 7 = 10000 :=
  ⟨(sse_failover_behavior 30000).1 1 (by decide),
   (sse_failover_behavior 30000).2.1 3 SseOutcome.connectFailed (by decide),
   (sse_failover_behavior 30000).2.2.2.1 0 (by decide),
   (sse_failover_behavior 30000).2.2.2.2.2.1 2 (by decide),
   (sse_failover_behavior 30000).2.2.2.2.2.2 7 (by decide)⟩

/-! ## Claim theorems: the account-level poll cycle -/

theorem processOneMessage_eq (ctx : PollCtx) (q : QueueFile) (acked : List String)
    (msg : ClawTellMessage) :
    processOneMessage ctx (q, acked) msg =
      ((if disposition ctx msg = .queued then
          enqueue q (queuedMessageOf ctx msg) else q),
       acked ++ (if disposition ctx msg = .leftUnacked then [] else [msg.id])) := by
  unfold processOneMessage disposition
  split_ifs <;> simp_all

theorem processNewMessages_acks (ctx : PollCtx) (messages : List ClawTellMessage) :
    ∀ q acked, (messages.foldl (processOneMessage ctx) (q, acked)).2 =
      acked ++ (messages.filter
        (fun m => disposition ctx m != Disposition.leftUnacked)).map
        (fun m => m.id) := by
  induction messages with
  | nil => intro q acked; simp
  | cons m rest ih =>
    intro q acked
    rw [List.foldl_cons, processOneMessage_eq, ih]
    by_cases h : disposition ctx m = Disposition.leftUnacked <;>
      simp [h, List.filter_cons]

/-- **C1**: the batch-acknowledgment list a cycle hands to `batchAck` is
exactly the ids of the messages whose disposition was determined — rejected
by the delivery policy, dispatched successfully, or placed in the local
retry queue; a message left with its dispatch failed toward the default
agent (the only undetermined outcome) never contributes its id.  The
second part pins each disposition to the branch conditions that produce
it. -/
theorem ack_batch_only_after_disposition (ctx : PollCtx) (q : QueueFile)
    (messages : List ClawTellMessage) :
    (processNewMessages ctx q messages).2 =
      (messages.filter
        (fun m => disposition ctx m != Disposition.leftUnacked)).map
        (fun m => m.id) ∧
    (∀ m : ClawTellMessage,
      (disposition ctx m = .rejected ↔
        (checkDeliveryPolicy (senderNameOf m) ctx.policyCfg).allowed = false) ∧
      (disposition ctx m = .dispatched ↔
        (checkDeliveryPolicy (senderNameOf m) ctx.policyCfg).allowed = true ∧
        ctx.dispatchOk m = true) ∧
      (disposition ctx m = .queued ↔
        (checkDeliveryPolicy (senderNameOf m) ctx.policyCfg).allowed = true ∧
        ctx.dispatchOk m = false ∧ agentNameOf ctx m ≠ "main") ∧
      (disposition ctx m = .leftUnacked ↔
        (checkDeliveryPolicy (senderNameOf m) ctx.policyCfg).allowed = true ∧
        ctx.dispatchOk m = false ∧ agentNameOf ctx m = "main")) := by
  constructor
  · simpa [processNewMessages] using processNewMessages_acks ctx messages q []
  · intro m
    unfold disposition
    split_ifs with h1 h2 h3 <;> simp_all

/-- Witness for C1 on concrete cycles: a failed dispatch toward the
offline agent `helper` is queued and acked, while a failed dispatch toward
`main` leaves the ack batch empty. -/
theorem ack_batch_only_after_disposition_witness :
    (processNewMessages helperCtx emptyQueueFile [sampleMessage]).2 = ["m1"] ∧
    (processNewMessages failingCtx emptyQueueFile [sampleMessage]).2 = [] := by
  have h1 :=
    (ack_batch_only_after_disposition helperCtx emptyQueueFile [sampleMessage]).1
  have h2 :=
    (ack_batch_only_after_disposition failingCtx emptyQueueFile [sampleMessage]).1
  rw [h1, h2]
  exact ⟨by decide, by decide⟩

/-- **C2**: a message routed to the default agent `main` whose dispatch
fails changes neither the queue file nor the `ackedIds` accumulator, so it
is neither enqueued locally nor acknowledged in that cycle (the broker,
still holding it un-acked, redelivers it on the next poll). -/
theorem default_agent_failure_neither_queued_nor_acked (ctx : PollCtx)
    (q : QueueFile) (messages : List ClawTellMessage) (m : ClawTellMessage)
    (hallow : (checkDeliveryPolicy (senderNameOf m) ctx.policyCfg).allowed = true)
    (hmain : agentNameOf ctx m = "main")
    (hfail : ctx.dispatchOk m = false) :
    (∀ acked, processOneMessage ctx (q, acked) m = (q, acked)) ∧
    ((messages.map (fun x => x.id)).Nodup → m ∈ messages →
      m.id ∉ (processNewMessages ctx q messages).2) := by
  have hdisp : disposition ctx m = .leftUnacked := by
    unfold disposition
    rw [if_neg (by simp [hallow]), if_neg (by simp [hfail]),
      if_neg (by simp [hmain])]
  constructor
  · intro acked
    rw [processOneMessage_eq]
    simp [hdisp]
  · intro hnodup hmem hacked
    have hchar := processNewMessages_acks ctx messages q []
    unfold processNewMessages at hacked
    rw [hchar] at hacked
    simp only [List.nil_append, List.mem_map, List.mem_filter] at hacked
    rcases hacked with ⟨m', ⟨hm'mem, hm'disp⟩, hm'id⟩
    have hne : m' ≠ m := by
      intro he
      subst he
      rw [hdisp] at hm'disp
      simp at hm'disp
    exact hne (List.inj_on_of_nodup_map hnodup hm'mem hmem hm'id)

/-- Witness for C2: with an always-failing dispatch oracle and a message
routed to `main`, the per-message step is the identity and the cycle acks
nothing. -/
theorem default_agent_failure_witness :
    processOneMessage failingCtx (emptyQueueFile, []) sampleMessage =
      (emptyQueueFile, []) ∧
    sampleMessage.id ∉
      (processNewMessages failingCtx emptyQueueFile [sampleMessage]).2 := by
  have h := default_agent_failure_neither_queued_nor_acked failingCtx
    emptyQueueFile [sampleMessage] sampleMessage (by decide) (by decide) rfl
  exact ⟨h.1 [], h.2 (by decide) (by simp)⟩

end ClawTell
